import Mathlib

/-!
Verification of the FreeIPA MCP server core (src/freeipa_mcp_server.py):
the result normalizer (safe_json_serialize), the phone-number normalization
used by the password-reset flow, and the session/connection state machine
with its tool handlers.

Conventions of the embedding:
  - Python values that can be cyclic (the inputs of safe_json_serialize)
    are modelled as nodes of a heap: a function from node ids to shapes,
    where list/tuple elements and dict values are node references.  A heap
    may be cyclic; termination of the serializer comes from the depth
    bound exactly as in the source.
  - Python exceptions are modelled with Except String; a raised exception
    is Except.error with the exception text.
  - The backend RPC client (python_freeipa ClientMeta) is an oracle: a
    structure of functions saying, for each operation, whether it returns
    (ok, with a heap node holding the raw response) or raises.
-/

namespace FreeIPA

/-- JSON-safe values: the closed set of shapes that safe_json_serialize
is supposed to produce.  Floats are carried as their (opaque) repr text;
no arithmetic is ever performed on them. -/
inductive Json where
  | null
  | bool (b : Bool)
  | int (n : Int)
  | float (r : String)
  | str (s : String)
  | arr (items : List Json)
  | obj (fields : List (String × Json))

/-- A hashable Python value usable as a dict key.  For primitives, str(key)
is total; for an arbitrary hashable object, str(key) either returns a
string or raises (obj carries that outcome). -/
inductive PyKey where
  | none
  | bool (b : Bool)
  | int (n : Int)
  | float (r : String)
  | str (s : String)
  | obj (strRes : Except String String)

/-- The shape of one Python heap node, as dispatched on by
safe_json_serialize: None, bool/int/float/str primitives, list, tuple,
dict (keys immediate, values node references), or any other object,
carrying the outcome of str(obj). -/
inductive PyShape where
  | none
  | bool (b : Bool)
  | int (n : Int)
  | float (r : String)
  | str (s : String)
  | list (items : List Nat)
  | tuple (items : List Nat)
  | dict (entries : List (PyKey × Nat))
  | obj (strRes : Except String String)

/-- A Python heap: node ids to shapes.  Cyclic structures are heaps in
which some node is reachable from itself. -/
abbrev Heap := Nat → PyShape

/-- str(key) for a dict key (source line 97 and line 99). -/
def pyStrKey : PyKey → Except String String
  | .none => .ok "None"
  | .bool b => .ok (if b then "True" else "False")
  | .int n => .ok (toString n)
  | .float r => .ok r
  | .str s => .ok s
  | .obj r => r

/-- Python dict assignment result[k] = v: an existing key keeps its
position and gets the new value, a new key is appended. -/
def dictInsert (d : List (String × Json)) (k : String) (v : Json) :
    List (String × Json) :=
  if d.any (fun kv => kv.1 == k) then
    d.map (fun kv => if kv.1 == k then (k, v) else kv)
  else d ++ [(k, v)]

/-- The list comprehension of source line 92: serialize every element,
propagating any exception (there is no try around the list branch). -/
def serList (ser : Nat → Except String Json) :
    List Nat → Except String (List Json)
  | [] => .ok []
  | n :: rest => do
    let v ← ser n
    let vs ← serList ser rest
    pure (v :: vs)

/-- The dict loop of source lines 95-99.  Per entry: try to serialize the
value and compute str(key) (in that evaluation order); on an exception,
the except arm substitutes a placeholder — but it computes str(key) again
(line 99), so when str(key) itself raises, the exception propagates out
of the loop. -/
def serEntries (ser : Nat → Except String Json) :
    List (PyKey × Nat) → List (String × Json) →
    Except String (List (String × Json))
  | [], acc => .ok acc
  | (k, vn) :: rest, acc =>
    match (do
        let v ← ser vn
        let ks ← pyStrKey k
        pure (ks, v) : Except String (String × Json)) with
    | .ok kv => serEntries ser rest (dictInsert acc kv.1 kv.2)
    | .error e =>
      match pyStrKey k with
      | .ok ks =>
        serEntries ser rest
          (dictInsert acc ks (.str ("[Serialization Error: " ++ e ++ "]")))
      | .error e2 => .error e2

/-- safe_json_serialize, in fuel form: fuel = max_depth + 1 - current_depth.
Fuel 0 is exactly the source's current_depth > max_depth check (lines
87-88); every recursive call of the source increments current_depth by 1,
i.e. decrements the fuel. -/
def serializeFuel (h : Heap) : Nat → Nat → Except String Json
  | 0, _ => .ok (.str "[Max Depth Exceeded]")
  | fuel + 1, n =>
    match h n with
    | .none => .ok .null
    | .bool b => .ok (.bool b)
    | .int i => .ok (.int i)
    | .float r => .ok (.float r)
    | .str s => .ok (.str s)
    | .list items => (serList (serializeFuel h fuel) items).map .arr
    | .tuple items => (serList (serializeFuel h fuel) items).map .arr
    | .dict entries => (serEntries (serializeFuel h fuel) entries []).map .obj
    | .obj strRes =>
      .ok (.str (match strRes with
        | .ok s => s
        | .error _ => "[Unserializable Object]"))

/-- safe_json_serialize(obj, max_depth=10, current_depth=0) on heap node n.
current_depth > max_depth holds iff max_depth + 1 - current_depth = 0. -/
def safe_json_serialize (h : Heap) (n : Nat)
    (max_depth : Nat := 10) (current_depth : Nat := 0) :
    Except String Json :=
  serializeFuel h (max_depth + 1 - current_depth) n

/-! Phone-number normalization (source lines 245-246):
    phone.replace("+90", "").replace("0", "", 1)
         .replace(" ", "").replace("-", "") -/

/-- Python str.replace(old, new[, count]) on character lists: scan left to
right; at each position, if the (non-empty) pattern matches, emit the
replacement, skip the pattern, and decrement the remaining count;
otherwise keep the character and move on.  The fuel argument is only a
structural-recursion device; fuel = length of the scanned list always
suffices because every step consumes at least one character. -/
def replListF (old new : List Char) : Nat → Option Nat → List Char → List Char
  | 0, _, s => s
  | _ + 1, some 0, s => s
  | fuel + 1, cnt, s =>
    match s with
    | [] => []
    | c :: rest =>
      if old ≠ [] ∧ old.isPrefixOf (c :: rest) then
        new ++ replListF old new fuel (cnt.map (fun k => k - 1))
          ((c :: rest).drop old.length)
      else
        c :: replListF old new fuel cnt rest

/-- Python str.replace: count = none means replace all occurrences. -/
def pyReplace (s old new : String) (cnt : Option Nat) : String :=
  ⟨replListF old.data new.data s.data.length cnt s.data⟩

/-- normalize_phone from the source (lines 245-246), as the chain of four
Python replace calls. -/
def normalize_phone (phone : String) : String :=
  pyReplace
    (pyReplace
      (pyReplace (pyReplace phone "+90" "" Option.none) "0" "" (some 1))
      " " "" Option.none)
    "-" "" Option.none

/-- Modelled from the spec: the normalization as the claim words it —
strip the country-code "+90" only when it is a prefix, strip a single
leading trunk digit "0", and remove all spaces and hyphens; a "0" that is
not the leading digit and a "+90" that is not a prefix are left in
place. -/
def normalize_phone_spec (phone : String) : String :=
  let s1 : List Char :=
    if ("+90".data).isPrefixOf phone.data then phone.data.drop 3
    else phone.data
  let s2 : List Char :=
    match s1 with
    | '0' :: rest => rest
    | _ => s1
  ⟨s2.filter (fun c => c ≠ ' ' ∧ c ≠ '-')⟩

/-- Remove every occurrence of the three-character pattern "+90",
wherever it occurs, scanning left to right without rescanning the
produced text. -/
def removeAll90 : List Char → List Char
  | [] => []
  | c :: rest =>
    if c = '+' ∧ rest.take 2 = ['9', '0'] then removeAll90 (rest.drop 2)
    else c :: removeAll90 rest
termination_by l => l.length
decreasing_by
  · simp only [List.length_cons, List.length_drop]
    omega
  · simp only [List.length_cons]
    omega

/-- Remove the first occurrence of the character 0, wherever it is. -/
def removeFirst0 : List Char → List Char
  | [] => []
  | c :: rest => if c = '0' then rest else c :: removeFirst0 rest

/-! Session manager and tool handlers (source lines 78-136 and 139-490). -/

/-- The static process configuration: FREEIPA_SERVER, FREEIPA_USERNAME,
FREEIPA_PASSWORD, FREEIPA_VERIFY_SSL (source lines 69-72). -/
structure Config where
  server : String
  username : String
  password : String
  verifySsl : Bool
deriving DecidableEq

/-- A backend handle (a ClientMeta instance), identified by the
configuration it was constructed and logged in with plus a tag so that
distinct instances with equal configuration stay distinguishable. -/
structure Client where
  cfg : Config
  tag : Nat
deriving DecidableEq

/-- The process-wide session state: the freeipa_client slot and the
freeipa_connected flag (source lines 79-80). -/
structure Session where
  client : Option Client
  connected : Bool
deriving DecidableEq

/-- One backend RPC invocation, as observed at the oracle boundary.  The
first four are connection-management calls; the rest are directory
operations. -/
inductive BCall where
  | newClient (cfg : Config)
  | login (c : Client) (username password : String)
  | logout (c : Client)
  | ping (c : Client)
  | changePassword (c : Client) (username newPassword oldPassword : String)
  | userShow (c : Client) (uid : String)
  | userFind (c : Client) (sizelimit : Int)
  | userAdd (c : Client) (uid givenname sn mail userpassword : String)
  | userMod (c : Client) (uid : String) (fields : List (String × String))
  | groupFind (c : Client) (cn description : Option String) (sizelimit : Int)
  | groupShow (c : Client) (cn : String)
  | groupAdd (c : Client) (cn description : String)
  | groupAddMember (c : Client) (cn user : String)
  | groupRemoveMember (c : Client) (cn user : String)
deriving DecidableEq

/-- Directory operations are every backend call other than the four
connection-management calls. -/
def BCall.isDirectory : BCall → Bool
  | .newClient _ | .login _ _ _ | .logout _ | .ping _ => false
  | _ => true

/-- The backend oracle: for each operation of the RPC client, whether it
returns or raises.  Operations whose responses flow into
safe_json_serialize return a heap node holding the raw response mapping;
genPassword is the outcome of the handler-local generate_password()
(secrets.choice is modelled as an oracle value). -/
structure Backend where
  newClient : Config → Except String Client
  login : Client → String → String → Except String Unit
  logout : Client → Except String Unit
  ping : Client → Except String Nat
  changePassword : Client → String → String → String → Except String Nat
  userShow : Client → String → Except String Nat
  userFind : Client → Int → Except String Nat
  userAdd : Client → String → String → String → String → String →
    Except String Nat
  userMod : Client → String → List (String × String) → Except String Nat
  groupFind : Client → Option String → Option String → Int →
    Except String Nat
  groupShow : Client → String → Except String Nat
  groupAdd : Client → String → String → Except String Nat
  groupAddMember : Client → String → String → Except String Nat
  groupRemoveMember : Client → String → String → Except String Nat
  genPassword : String

/-- connect_freeipa (source lines 107-121): construct a handle from the
static configuration and log in.  If the constructor raises, the
assignment to freeipa_client does not happen, so the slot keeps its old
value; if login raises, the slot already holds the attempted handle.
Either failure sets freeipa_connected to False and returns False. -/
def connect_freeipa (be : Backend) (cfg : Config) (s : Session) :
    Bool × Session × List BCall :=
  match be.newClient cfg with
  | .error _ => (false, { s with connected := false }, [.newClient cfg])
  | .ok c =>
    match be.login c cfg.username cfg.password with
    | .error _ =>
      (false, ⟨some c, false⟩,
        [.newClient cfg, .login c cfg.username cfg.password])
    | .ok _ =>
      (true, ⟨some c, true⟩,
        [.newClient cfg, .login c cfg.username cfg.password])

/-- ensure_connection (source lines 123-136): if not connected or the
slot is empty, delegate to connect_freeipa; otherwise ping, and on a
ping exception reconnect once via connect_freeipa. -/
def ensure_connection (be : Backend) (cfg : Config) (s : Session) :
    Bool × Session × List BCall :=
  match s.connected, s.client with
  | true, some c =>
    match be.ping c with
    | .ok _ => (true, s, [.ping c])
    | .error _ =>
      let r := connect_freeipa be cfg s
      (r.1, r.2.1, .ping c :: r.2.2)
  | _, _ => connect_freeipa be cfg s

/-- What a tool handler returns: a Python dict (field list), or Python
None when the function falls off the end without a return. -/
abbrev Outcome := Option (List (String × Json))

/-- Does the returned mapping contain the given field. -/
def hasKey (k : String) (d : List (String × Json)) : Bool :=
  d.any (fun kv => kv.1 == k)

/-- An outcome is well-formed when it is a mapping holding exactly one of
a result field or an error field. -/
def outcomeOk : Outcome → Bool
  | Option.none => false
  | some d => xor (hasKey "result" d) (hasKey "error" d)

/-- The session invariant of the data model: a true connected flag is
accompanied by a handle in the slot. -/
def invB (s : Session) : Bool :=
  !s.connected || s.client.isSome

/-- The localized not-connected error text every handler returns when
the admission gate fails. -/
def notConnectedMsg : String := "FreeIPA sunucusuna bağlı değil"

/-- Dict lookup by a string key, as res.get(k, default) resolves it: only
a str key equal to k matches. -/
def lookupStrKey (entries : List (PyKey × Nat)) (k : String) : Option Nat :=
  match entries with
  | [] => Option.none
  | (PyKey.str s, vn) :: rest =>
    if s = k then some vn else lookupStrKey rest k
  | _ :: rest => lookupStrKey rest k

/-- res.get("result", default) followed by safe_json_serialize, as every
simple handler does (e.g. source lines 297-298).  dflt is the
serialization of the fresh default container the source supplies ({}
serializes to the empty mapping, [] to the empty sequence).  Calling
.get on a non-mapping raises AttributeError, modelled with a fixed
text. -/
def serializeResultField (h : Heap) (n : Nat) (dflt : Json) :
    Except String Json :=
  match h n with
  | .dict entries =>
    match lookupStrKey entries "result" with
    | some vn => safe_json_serialize h vn
    | Option.none => .ok dflt
  | _ => .error "object has no attribute get"

/-- user_info.get("result", {}).get("telephonenumber", []) as read by
forgot_reset_password (source line 250), then the list comprehension
that treats each entry as a string.  A response outside the
mapping-of-mapping-of-string-list shape raises when the handler applies
string operations to it, modelled with a fixed text. -/
def getPhones (h : Heap) (n : Nat) : Except String (List String) :=
  match h n with
  | .dict entries =>
    match lookupStrKey entries "result" with
    | some rn =>
      match h rn with
      | .dict res =>
        match lookupStrKey res "telephonenumber" with
        | some pn =>
          match h pn with
          | .list ns =>
            ns.mapM (fun m =>
              match h m with
              | .str s => Except.ok s
              | _ => Except.error "object has no attribute replace")
          | _ => .error "object is not iterable"
        | Option.none => .ok []
      | _ => .error "object has no attribute get"
    | Option.none => .ok []
  | _ => .error "object has no attribute get"

/-- The shared template of the one-backend-call handlers (source §
user_list .. group_remove_member, change_password): pass the
ensure_connection gate, else return the not-connected error; issue the
backend call on the global handle; route res.get("result", dflt) through
safe_json_serialize; catch every exception into an error outcome carrying
the handler's localized message.  When the gate reports success but the
slot is empty (unreachable), the attribute access on None raises and is
caught like any backend exception. -/
def simpleHandler (be : Backend) (cfg : Config) (h : Heap) (s : Session)
    (op : Client → Except String Nat) (call : Client → BCall)
    (dflt : Json) (emsg : String) :
    Session × List BCall × Outcome :=
  let g := ensure_connection be cfg s
  if !g.1 then
    (g.2.1, g.2.2, some [("error", .str notConnectedMsg)])
  else
    match g.2.1.client with
    | Option.none =>
      (g.2.1, g.2.2,
        some [("error", .str (emsg ++ "NoneType has no attribute"))])
    | some c =>
      match op c with
      | .error e =>
        (g.2.1, g.2.2 ++ [call c], some [("error", .str (emsg ++ e))])
      | .ok n =>
        match serializeResultField h n dflt with
        | .ok j => (g.2.1, g.2.2 ++ [call c], some [("result", j)])
        | .error e =>
          (g.2.1, g.2.2 ++ [call c], some [("error", .str (emsg ++ e))])

/-- freeipa_connect (source lines 139-162): handle construction and login
from caller-supplied arguments.  As in connect_freeipa, a constructor
exception leaves the slot untouched and a login exception leaves the
attempted handle in the slot; both set connected to False. -/
def freeipa_connect (be : Backend)
    (server username password : String) (verify_ssl : Bool)
    (s : Session) : Session × List BCall × Outcome :=
  let cfg : Config := ⟨server, username, password, verify_ssl⟩
  match be.newClient cfg with
  | .error e =>
    ({ s with connected := false }, [.newClient cfg],
      some [("error", .str ("FreeIPA bağlantısı başarısız: " ++ e))])
  | .ok c =>
    match be.login c username password with
    | .error e =>
      (⟨some c, false⟩, [.newClient cfg, .login c username password],
        some [("error", .str ("FreeIPA bağlantısı başarısız: " ++ e))])
    | .ok _ =>
      (⟨some c, true⟩, [.newClient cfg, .login c username password],
        some [("result",
          .str ("FreeIPA sunucusuna başarıyla bağlandı: " ++ server))])

/-- freeipa_disconnect (source lines 164-181): if a handle exists, log
out; then clear the slot and the flag and report success.  A logout
exception jumps to the except arm before the clearing assignments run,
so the state is left unchanged and an error is returned. -/
def freeipa_disconnect (be : Backend) (s : Session) :
    Session × List BCall × Outcome :=
  match s.client with
  | Option.none =>
    (⟨Option.none, false⟩, [],
      some [("result", .str "FreeIPA bağlantısı kapatıldı")])
  | some c =>
    match be.logout c with
    | .ok _ =>
      (⟨Option.none, false⟩, [.logout c],
        some [("result", .str "FreeIPA bağlantısı kapatıldı")])
    | .error e =>
      (s, [.logout c],
        some [("error",
          .str ("FreeIPA bağlantısı kapatılırken hata: " ++ e))])

/-- freeipa_status (source lines 183-202): not-connected error when the
flag is down; otherwise, when a handle exists, ping and serialize the
ping response; a ping (or serialization) exception drops the flag and
returns an error.  When the flag is up but the slot is empty, the
function falls off the end of the if and returns None. -/
def freeipa_status (be : Backend) (h : Heap) (s : Session) :
    Session × List BCall × Outcome :=
  if !s.connected then
    (s, [], some [("error", .str notConnectedMsg)])
  else
    match s.client with
    | Option.none => (s, [], Option.none)
    | some c =>
      match be.ping c with
      | .error e =>
        ({ s with connected := false }, [.ping c],
          some [("error",
            .str ("FreeIPA bağlantısı kontrol edilirken hata: " ++ e))])
      | .ok n =>
        match safe_json_serialize h n with
        | .ok j => (s, [.ping c], some [("result", j)])
        | .error e =>
          ({ s with connected := false }, [.ping c],
            some [("error",
              .str ("FreeIPA bağlantısı kontrol edilirken hata: " ++ e))])

/-- change_password (source lines 204-222); its except arm reuses the
user-details message of the source verbatim (line 222). -/
def change_password (be : Backend) (cfg : Config) (h : Heap) (s : Session)
    (username new_password old_password : String) :
    Session × List BCall × Outcome :=
  simpleHandler be cfg h s
    (fun c => be.changePassword c username new_password old_password)
    (fun c => .changePassword c username new_password old_password)
    (.obj []) "Kullanıcı detayları alınırken hata: "

/-- forgot_reset_password (source lines 224-280): gate; look the account
up; verify the caller-supplied number against the stored numbers after
normalize_phone on both sides; set a generated temporary credential; if
the caller supplied a new password, change to it using the temporary one
as the old value; each failure path returns the corresponding error. -/
def forgot_reset_password (be : Backend) (cfg : Config) (h : Heap)
    (s : Session) (username phone new_password : String) :
    Session × List BCall × Outcome :=
  let emsg := "Kullanıcı şifresi resetlenirken hata: "
  let g := ensure_connection be cfg s
  if !g.1 then
    (g.2.1, g.2.2, some [("error", .str notConnectedMsg)])
  else
    match g.2.1.client with
    | Option.none =>
      (g.2.1, g.2.2,
        some [("error", .str (emsg ++ "NoneType has no attribute"))])
    | some c =>
      match be.userShow c username with
      | .error e =>
        (g.2.1, g.2.2 ++ [.userShow c username],
          some [("error", .str (emsg ++ e))])
      | .ok n =>
        match getPhones h n with
        | .error e =>
          (g.2.1, g.2.2 ++ [.userShow c username],
            some [("error", .str (emsg ++ e))])
        | .ok ipa_phones =>
          if ipa_phones.isEmpty ||
              !((ipa_phones.map normalize_phone).contains
                (normalize_phone phone)) then
            (g.2.1, g.2.2 ++ [.userShow c username],
              some [("error",
                .str "Telefon numarası doğrulanamadı veya sistemde kayıtlı değil.")])
          else
            let temp := be.genPassword
            match be.userMod c username [("o_userpassword", temp)] with
            | .error e =>
              (g.2.1,
                g.2.2 ++ [.userShow c username,
                  .userMod c username [("o_userpassword", temp)]],
                some [("error", .str (emsg ++ e))])
            | .ok _ =>
              if new_password ≠ "" then
                match be.changePassword c username new_password temp with
                | .error e =>
                  (g.2.1,
                    g.2.2 ++ [.userShow c username,
                      .userMod c username [("o_userpassword", temp)],
                      .changePassword c username new_password temp],
                    some [("error", .str (emsg ++ e))])
                | .ok _ =>
                  (g.2.1,
                    g.2.2 ++ [.userShow c username,
                      .userMod c username [("o_userpassword", temp)],
                      .changePassword c username new_password temp],
                    some [("result",
                      .str "Şifre başarıyla sıfırlandı ve yeni şifre ayarlandı."),
                      ("username", .str username),
                      ("new_password", .str new_password)])
              else
                (g.2.1,
                  g.2.2 ++ [.userShow c username,
                    .userMod c username [("o_userpassword", temp)]],
                  some [("result",
                    .str "Şifre başarıyla sıfırlandı. Yeni şifre kullanıcıya iletildi."),
                    ("username", .str username),
                    ("new_password", .str temp)])

/-- user_list (source lines 282-300). -/
def user_list (be : Backend) (cfg : Config) (h : Heap) (s : Session)
    (sizelimit : Int) : Session × List BCall × Outcome :=
  simpleHandler be cfg h s
    (fun c => be.userFind c sizelimit)
    (fun c => .userFind c sizelimit)
    (.arr []) "Kullanıcı listesi alınırken hata: "

/-- user_show (source lines 302-320). -/
def user_show (be : Backend) (cfg : Config) (h : Heap) (s : Session)
    (uid : String) : Session × List BCall × Outcome :=
  simpleHandler be cfg h s
    (fun c => be.userShow c uid)
    (fun c => .userShow c uid)
    (.obj []) "Kullanıcı detayları alınırken hata: "

/-- user_add (source lines 322-356). -/
def user_add (be : Backend) (cfg : Config) (h : Heap) (s : Session)
    (uid givenname sn mail userpassword : String) :
    Session × List BCall × Outcome :=
  simpleHandler be cfg h s
    (fun c => be.userAdd c uid givenname sn mail userpassword)
    (fun c => .userAdd c uid givenname sn mail userpassword)
    (.obj []) "Kullanıcı eklenirken hata: "

/-- user_modify (source lines 358-379): keyword arguments with a None
value are filtered out before the backend call. -/
def user_modify (be : Backend) (cfg : Config) (h : Heap) (s : Session)
    (uid : String) (kwargs : List (String × Option String)) :
    Session × List BCall × Outcome :=
  let params := kwargs.filterMap (fun kv => kv.2.map (fun v => (kv.1, v)))
  simpleHandler be cfg h s
    (fun c => be.userMod c uid params)
    (fun c => .userMod c uid params)
    (.obj []) "Kullanıcı güncellenirken hata: "

/-- group_list (source lines 381-407): the find call carries the name
filter, the description filter, both, or neither, by truthiness of the
two optional strings. -/
def group_list (be : Backend) (cfg : Config) (h : Heap) (s : Session)
    (sizelimit : Int) (cn description : String) :
    Session × List BCall × Outcome :=
  let ocn : Option String := if cn ≠ "" then some cn else Option.none
  let odesc : Option String :=
    if description ≠ "" then some description else Option.none
  simpleHandler be cfg h s
    (fun c => be.groupFind c ocn odesc sizelimit)
    (fun c => .groupFind c ocn odesc sizelimit)
    (.arr []) "Grup listesi alınırken hata: "

/-- group_show (source lines 409-427). -/
def group_show (be : Backend) (cfg : Config) (h : Heap) (s : Session)
    (cn : String) : Session × List BCall × Outcome :=
  simpleHandler be cfg h s
    (fun c => be.groupShow c cn)
    (fun c => .groupShow c cn)
    (.obj []) "Grup detayları alınırken hata: "

/-- group_add (source lines 429-448). -/
def group_add (be : Backend) (cfg : Config) (h : Heap) (s : Session)
    (cn description : String) : Session × List BCall × Outcome :=
  simpleHandler be cfg h s
    (fun c => be.groupAdd c cn description)
    (fun c => .groupAdd c cn description)
    (.obj []) "Grup eklenirken hata: "

/-- group_add_member (source lines 450-469). -/
def group_add_member (be : Backend) (cfg : Config) (h : Heap) (s : Session)
    (cn user : String) : Session × List BCall × Outcome :=
  simpleHandler be cfg h s
    (fun c => be.groupAddMember c cn user)
    (fun c => .groupAddMember c cn user)
    (.obj []) "Gruba üye eklenirken hata: "

/-- group_remove_member (source lines 471-490). -/
def group_remove_member (be : Backend) (cfg : Config) (h : Heap)
    (s : Session) (cn user : String) : Session × List BCall × Outcome :=
  simpleHandler be cfg h s
    (fun c => be.groupRemoveMember c cn user)
    (fun c => .groupRemoveMember c cn user)
    (.obj []) "Gruptan üye çıkarılırken hata: "

/-- The exposed action surface, one constructor per tool. -/
inductive Action where
  | connect (server username password : String) (verifySsl : Bool)
  | disconnect
  | status
  | changePassword (username newPassword oldPassword : String)
  | forgotResetPassword (username phone newPassword : String)
  | userList (sizelimit : Int)
  | userShow (uid : String)
  | userAdd (uid givenname sn mail userpassword : String)
  | userModify (uid : String) (kwargs : List (String × Option String))
  | groupList (sizelimit : Int) (cn description : String)
  | groupShow (cn : String)
  | groupAdd (cn description : String)
  | groupAddMember (cn user : String)
  | groupRemoveMember (cn user : String)
deriving DecidableEq

/-- The directory operation handlers: every action except
connect/disconnect/status. -/
def Action.isDirectory : Action → Bool
  | .connect _ _ _ _ | .disconnect | .status => false
  | _ => true

/-- Dispatch one action against the session state, under a backend
oracle, a response heap, and the static process configuration. -/
def runAction (be : Backend) (cfg : Config) (h : Heap) (s : Session) :
    Action → Session × List BCall × Outcome
  | .connect server username password verifySsl =>
    freeipa_connect be server username password verifySsl s
  | .disconnect => freeipa_disconnect be s
  | .status => freeipa_status be h s
  | .changePassword u np op => change_password be cfg h s u np op
  | .forgotResetPassword u p np => forgot_reset_password be cfg h s u p np
  | .userList sz => user_list be cfg h s sz
  | .userShow uid => user_show be cfg h s uid
  | .userAdd uid gn sn mail pw => user_add be cfg h s uid gn sn mail pw
  | .userModify uid kwargs => user_modify be cfg h s uid kwargs
  | .groupList sz cn d => group_list be cfg h s sz cn d
  | .groupShow cn => group_show be cfg h s cn
  | .groupAdd cn d => group_add be cfg h s cn d
  | .groupAddMember cn u => group_add_member be cfg h s cn u
  | .groupRemoveMember cn u => group_remove_member be cfg h s cn u

/-- One step of a run: the backend oracle and the response heap may vary
from call to call. -/
structure Step where
  be : Backend
  cfg : Config
  heap : Heap
  act : Action

/-- Run a sequence of actions from a starting session state, keeping only
the evolving session state. -/
def runActions (steps : List Step) (s : Session) : Session :=
  steps.foldl (fun s st => (runAction st.be st.cfg st.heap s st.act).1) s

/-- The initial session state of the process (source lines 79-80). -/
def initSession : Session := ⟨Option.none, false⟩

/-! Theorems. -/

/-- A heap whose root is the Python dict with a single entry whose key is
an object with a raising str() and whose value is the integer 1:
the Python literal is a dict with one entry, key K() and value 1, where
K.__str__ raises Exception("boom"). -/
def badKeyHeap : Heap := fun n =>
  if n = 0 then .dict [(PyKey.obj (.error "boom"), 1)] else .int 1

/-- C2: the normalizer is claimed never to raise, but on a dict holding a
key whose str() raises, the except arm of the dict loop (source line 99)
recomputes str(key) and the exception escapes safe_json_serialize: at the
failing input the function propagates the exception instead of returning
a value. -/
theorem safe_json_serialize_raises_on_bad_key :
    safe_json_serialize badKeyHeap 0 = .error "boom" := rfl

/-- C3: whenever current_depth exceeds max_depth, safe_json_serialize
returns exactly the placeholder string, for every heap and node (source
lines 87-88 run before any type dispatch). -/
theorem safe_json_serialize_depth_exceeded (h : Heap) (n : Nat)
    (max_depth current_depth : Nat) (hd : max_depth < current_depth) :
    safe_json_serialize h n max_depth current_depth =
      .ok (.str "[Max Depth Exceeded]") := by
  unfold safe_json_serialize
  have h0 : max_depth + 1 - current_depth = 0 := by omega
  rw [h0]
  rfl

/-- Witness for C3 at a concrete heap, node and depth pair. -/
theorem safe_json_serialize_depth_exceeded_witness :
    10 < 11 ∧
    safe_json_serialize (fun _ => .int 7) 0 10 11 =
      .ok (.str "[Max Depth Exceeded]") :=
  ⟨by decide,
    safe_json_serialize_depth_exceeded (fun _ => .int 7) 0 10 11 (by decide)⟩

/-- C9 counterexample: on the input "150" the code removes the first "0"
even though it is not the leading digit (the claim says such a "0" is
left in place, which would give back "150"): normalize_phone and the
claim's spec-worded normalization disagree at "150". -/
theorem normalize_phone_differs_from_spec :
    normalize_phone "150" = "15" ∧ normalize_phone_spec "150" = "150" ∧
    normalize_phone "150" ≠ normalize_phone_spec "150" := by decide

/-- The three-character prefix test of Python replace("+90", ...) on a
cons cell, spelled out. -/
theorem prefix90_iff (c : Char) (rest : List Char) :
    ("+90".data).isPrefixOf (c :: rest) = true ↔
      c = '+' ∧ rest.take 2 = ['9', '0'] := by
  have h90 : "+90".data = ['+', '9', '0'] := rfl
  rw [h90, List.isPrefixOf_iff_prefix]
  match rest with
  | [] =>
    simp [List.cons_prefix_cons, List.prefix_nil]
  | [a] =>
    simp [List.cons_prefix_cons, List.prefix_nil, eq_comm]
  | a :: b :: t =>
    simp [List.cons_prefix_cons, eq_comm, and_assoc]

/-- Fuel elimination and specialization of Python replace("+90", ""):
with enough fuel it is the left-to-right scanner removing every
occurrence of the pattern. -/
theorem replListF_all90 (fuel : Nat) :
    ∀ l : List Char, l.length ≤ fuel →
      replListF "+90".data [] fuel Option.none l = removeAll90 l := by
  induction fuel with
  | zero =>
    intro l hl
    have h0 : l = [] := List.eq_nil_of_length_eq_zero (Nat.le_zero.mp hl)
    subst h0
    simp [removeAll90, replListF]
  | succ fuel ih =>
    intro l hl
    match l with
    | [] => simp [removeAll90, replListF]
    | c :: rest =>
      show (if "+90".data ≠ [] ∧ "+90".data.isPrefixOf (c :: rest) then
          [] ++ replListF "+90".data [] fuel
            (Option.map (fun k => k - 1) Option.none)
            ((c :: rest).drop "+90".data.length)
        else c :: replListF "+90".data [] fuel Option.none rest) =
        removeAll90 (c :: rest)
      rw [removeAll90]
      by_cases hp : c = '+' ∧ rest.take 2 = ['9', '0']
      · rw [if_pos ⟨by decide, (prefix90_iff c rest).mpr hp⟩, if_pos hp]
        have hdrop : (c :: rest).drop ("+90".data).length = rest.drop 2 := rfl
        rw [hdrop]
        have hlen : (rest.drop 2).length ≤ fuel := by
          simp only [List.length_cons] at hl
          simp only [List.length_drop]
          omega
        simpa using ih (rest.drop 2) hlen
      · rw [if_neg (fun hand => hp ((prefix90_iff c rest).mp hand.2)),
          if_neg hp]
        have hlen : rest.length ≤ fuel := by
          simp only [List.length_cons] at hl
          omega
        rw [ih rest hlen]

/-- A single-character pattern is a prefix of a cons cell exactly when it
is the head. -/
theorem prefix_single_iff (a c : Char) (rest : List Char) :
    ([a]).isPrefixOf (c :: rest) = true ↔ c = a := by
  rw [ List.isPrefixOf_iff_prefix]
  simp [List.cons_prefix_cons, eq_comm]

/-- With a replacement count of zero, Python replace leaves the rest of
the string untouched. -/
theorem replListF_count_zero (old new : List Char) (fuel : Nat)
    (s : List Char) : replListF old new fuel (some 0) s = s := by
  cases fuel <;> rfl

/-- Fuel elimination and specialization of Python replace("0", "", 1):
with enough fuel it removes the first occurrence of the character 0,
wherever that occurrence is. -/
theorem replListF_first0 (fuel : Nat) :
    ∀ l : List Char, l.length ≤ fuel →
      replListF "0".data [] fuel (some 1) l = removeFirst0 l := by
  induction fuel with
  | zero =>
    intro l hl
    have h0 : l = [] := List.eq_nil_of_length_eq_zero (Nat.le_zero.mp hl)
    subst h0
    simp [replListF, removeFirst0]
  | succ fuel ih =>
    intro l hl
    match l with
    | [] => simp [replListF, removeFirst0]
    | c :: rest =>
      show (if "0".data ≠ [] ∧ "0".data.isPrefixOf (c :: rest) then
          [] ++ replListF "0".data [] fuel
            (Option.map (fun k => k - 1) (some 1))
            ((c :: rest).drop "0".data.length)
        else c :: replListF "0".data [] fuel (some 1) rest) =
        removeFirst0 (c :: rest)
      rw [removeFirst0]
      by_cases hc : c = '0'
      · rw [if_pos ⟨by decide, (prefix_single_iff '0' c rest).mpr hc⟩,
          if_pos hc]
        show replListF "0".data [] fuel (some 0) rest = rest
        exact replListF_count_zero _ _ _ _
      · rw [if_neg (fun hand =>
            hc ((prefix_single_iff '0' c rest).mp hand.2)),
          if_neg hc]
        have hlen : rest.length ≤ fuel := by
          simp only [List.length_cons] at hl
          omega
        rw [ih rest hlen]

/-- Fuel elimination and specialization of Python replace(ch, ""): with
enough fuel it removes every occurrence of the single character, i.e. it
is the filter keeping the other characters. -/
theorem replListF_removeChar (a : Char) (fuel : Nat) :
    ∀ l : List Char, l.length ≤ fuel →
      replListF [a] [] fuel Option.none l =
        l.filter (fun c => c != a) := by
  induction fuel with
  | zero =>
    intro l hl
    have h0 : l = [] := List.eq_nil_of_length_eq_zero (Nat.le_zero.mp hl)
    subst h0
    simp [replListF]
  | succ fuel ih =>
    intro l hl
    match l with
    | [] => simp [replListF]
    | c :: rest =>
      show (if [a] ≠ [] ∧ ([a]).isPrefixOf (c :: rest) then
          [] ++ replListF [a] [] fuel
            (Option.map (fun k => k - 1) Option.none)
            ((c :: rest).drop ([a] : List Char).length)
        else c :: replListF [a] [] fuel Option.none rest) =
        (c :: rest).filter (fun c => c != a)
      have hlen : rest.length ≤ fuel := by
        simp only [List.length_cons] at hl
        omega
      by_cases hc : c = a
      · rw [if_pos ⟨by simp, (prefix_single_iff a c rest).mpr hc⟩]
        subst hc
        simp only [List.filter_cons, bne_self_eq_false, List.nil_append,
          Option.map_none]
        show replListF [c] [] fuel Option.none rest = _
        exact ih rest hlen
      · rw [if_neg (fun hand =>
            hc ((prefix_single_iff a c rest).mp hand.2))]
        have hbne : (c != a) = true := bne_iff_ne.mpr hc
        simp only [List.filter_cons, hbne]
        rw [ih rest hlen]
        simp

/-- C9 amended: normalize_phone removes every occurrence of the substring
"+90" wherever it occurs (scanning left to right), then the first
remaining "0" wherever it occurs, then every space, then every hyphen —
not only the country-code prefix and the leading trunk digit. -/
theorem normalize_phone_eq_scanners (phone : String) :
    normalize_phone phone =
      ⟨((removeFirst0 (removeAll90 phone.data)).filter
          (fun c => c != ' ')).filter (fun c => c != '-')⟩ := by
  have h1 : pyReplace phone "+90" "" Option.none =
      ⟨removeAll90 phone.data⟩ := by
    unfold pyReplace
    rw [show ("".data : List Char) = [] from rfl,
      replListF_all90 _ _ (le_refl _)]
  have h2 : pyReplace ⟨removeAll90 phone.data⟩ "0" "" (some 1) =
      ⟨removeFirst0 (removeAll90 phone.data)⟩ := by
    unfold pyReplace
    rw [show ("".data : List Char) = [] from rfl,
      replListF_first0 _ _ (le_refl _)]
  have h3 : pyReplace ⟨removeFirst0 (removeAll90 phone.data)⟩ " " ""
      Option.none =
      ⟨(removeFirst0 (removeAll90 phone.data)).filter
        (fun c => c != ' ')⟩ := by
    unfold pyReplace
    rw [show ("".data : List Char) = [] from rfl,
      show (" ".data : List Char) = [' '] from rfl,
      replListF_removeChar _ _ _ (le_refl _)]
  have h4 : pyReplace
      ⟨(removeFirst0 (removeAll90 phone.data)).filter
        (fun c => c != ' ')⟩ "-" "" Option.none =
      ⟨((removeFirst0 (removeAll90 phone.data)).filter
          (fun c => c != ' ')).filter (fun c => c != '-')⟩ := by
    unfold pyReplace
    rw [show ("".data : List Char) = [] from rfl,
      show ("-".data : List Char) = ['-'] from rfl,
      replListF_removeChar _ _ _ (le_refl _)]
  show pyReplace (pyReplace (pyReplace
      (pyReplace phone "+90" "" Option.none) "0" "" (some 1))
      " " "" Option.none) "-" "" Option.none = _
  rw [h1, h2, h3, h4]

/-! Concrete oracles used by witnesses and counterexamples. -/

/-- A concrete static configuration. -/
def cfg0 : Config := ⟨"ipa.example.com", "admin", "secret", false⟩

/-- A concrete handle. -/
def client0 : Client := ⟨cfg0, 0⟩

/-- A concrete heap whose every node is None. -/
def heap0 : Heap := fun _ => .none

/-- A backend on which every operation raises. -/
def backendDown : Backend where
  newClient := fun _ => .error "connection refused"
  login := fun _ _ _ => .error "connection refused"
  logout := fun _ => .error "connection refused"
  ping := fun _ => .error "connection refused"
  changePassword := fun _ _ _ _ => .error "connection refused"
  userShow := fun _ _ => .error "connection refused"
  userFind := fun _ _ => .error "connection refused"
  userAdd := fun _ _ _ _ _ _ => .error "connection refused"
  userMod := fun _ _ _ => .error "connection refused"
  groupFind := fun _ _ _ _ => .error "connection refused"
  groupShow := fun _ _ => .error "connection refused"
  groupAdd := fun _ _ _ => .error "connection refused"
  groupAddMember := fun _ _ _ => .error "connection refused"
  groupRemoveMember := fun _ _ _ => .error "connection refused"
  genPassword := "Aq1Bq2Cq3Dq4"

/-- A backend on which the connection-management operations succeed and
every directory response is the all-None heap root. -/
def backendUp : Backend :=
  { backendDown with
    newClient := fun cfg => .ok ⟨cfg, 1⟩
    login := fun _ _ _ => .ok ()
    logout := fun _ => .ok ()
    ping := fun _ => .ok 0 }

/-- A backend on which handle construction succeeds but login raises. -/
def backendLoginFail : Backend :=
  { backendDown with newClient := fun cfg => .ok ⟨cfg, 1⟩ }

/-- The number of reconnect attempts visible in a call trace: each
attempt begins with a handle construction. -/
def connectAttempts (cs : List BCall) : Nat :=
  (cs.filter (fun b => match b with
    | .newClient _ => true
    | _ => false)).length

/-- Every run of connect_freeipa performs exactly one attempt. -/
theorem connect_freeipa_one_attempt (be : Backend) (cfg : Config)
    (s : Session) :
    connectAttempts (connect_freeipa be cfg s).2.2 = 1 := by
  cases hbe : be.newClient cfg with
  | error e =>
    unfold connect_freeipa
    rw [hbe]
    rfl
  | ok c =>
    cases hlg : be.login c cfg.username cfg.password with
    | error e =>
      unfold connect_freeipa
      simp only [hbe]
      rw [hlg]
      rfl
    | ok u =>
      unfold connect_freeipa
      simp only [hbe]
      rw [hlg]
      rfl

/-- C1: while the flag is up and a handle is present, the ensure-connected
gate pings; a successful ping returns success with no reconnect attempt
and an unchanged session, and a raising ping performs exactly one
reconnect attempt via connect_freeipa on the static configuration,
returning that attempt's outcome. -/
theorem ensure_connection_connected (be : Backend) (cfg : Config)
    (s : Session) (c : Client)
    (hconn : s.connected = true) (hcli : s.client = some c) :
    (∀ r, be.ping c = .ok r →
      ensure_connection be cfg s = (true, s, [.ping c]) ∧
      connectAttempts [BCall.ping c] = 0) ∧
    (∀ e, be.ping c = .error e →
      ensure_connection be cfg s =
        ((connect_freeipa be cfg s).1, (connect_freeipa be cfg s).2.1,
          .ping c :: (connect_freeipa be cfg s).2.2) ∧
      connectAttempts (.ping c :: (connect_freeipa be cfg s).2.2) = 1) := by
  constructor
  · intro r hr
    refine ⟨?_, rfl⟩
    unfold ensure_connection
    simp only [hconn, hcli]
    rw [hr]
  · intro e he
    constructor
    · unfold ensure_connection
      simp only [hconn, hcli]
      rw [he]
    · show connectAttempts (connect_freeipa be cfg s).2.2 = 1
      exact connect_freeipa_one_attempt be cfg s

/-- Witness for C1 in the ping-raises case: the gate on a connected
session with a dead backend makes exactly one reconnect attempt with the
static configuration and reports its failure. -/
theorem ensure_connection_connected_witness :
    (⟨some client0, true⟩ : Session).connected = true ∧
    backendDown.ping client0 = .error "connection refused" ∧
    ensure_connection backendDown cfg0 ⟨some client0, true⟩ =
      (false, ⟨some client0, false⟩, [.ping client0, .newClient cfg0]) ∧
    connectAttempts [.ping client0, .newClient cfg0] = 1 := by
  have h := (ensure_connection_connected backendDown cfg0
    ⟨some client0, true⟩ client0 rfl rfl).2 "connection refused" rfl
  exact ⟨rfl, rfl, h.1, h.2⟩

/-- C4 counterexample: with handle construction succeeding and login
raising, the failing connect leaves the attempted handle in the Session
slot; the claimed discarding of the attempted handle is false at this
input. -/
theorem freeipa_connect_retains_attempted_handle :
    (freeipa_connect backendLoginFail "srv" "u" "p" true
      initSession).1.client = some ⟨⟨"srv", "u", "p", true⟩, 1⟩ ∧
    (freeipa_connect backendLoginFail "srv" "u" "p" true
      initSession).1.client ≠ Option.none := by
  refine ⟨rfl, ?_⟩
  intro hnone
  rw [show (freeipa_connect backendLoginFail "srv" "u" "p" true
      initSession).1.client = some ⟨⟨"srv", "u", "p", true⟩, 1⟩ from rfl]
    at hnone
  exact Option.noConfusion hnone

/-- C4 amended: every failing connect sets the flag to false and returns
a failure whose error text carries the backend message; the handle slot
is not cleared — on construction failure it keeps the previous handle,
on login failure it keeps the attempted handle. -/
theorem freeipa_connect_failure (be : Backend)
    (server username password : String) (vssl : Bool) (s : Session) :
    (∀ e, be.newClient ⟨server, username, password, vssl⟩ = .error e →
      freeipa_connect be server username password vssl s =
        ({ s with connected := false },
          [.newClient ⟨server, username, password, vssl⟩],
          some [("error", .str ("FreeIPA bağlantısı başarısız: " ++ e))])) ∧
    (∀ c e, be.newClient ⟨server, username, password, vssl⟩ = .ok c →
      be.login c username password = .error e →
      freeipa_connect be server username password vssl s =
        (⟨some c, false⟩,
          [.newClient ⟨server, username, password, vssl⟩,
            .login c username password],
          some [("error", .str ("FreeIPA bağlantısı başarısız: " ++ e))])) := by
  constructor
  · intro e he
    simp only [freeipa_connect]
    rw [he]
  · intro c e hc he
    simp only [freeipa_connect]
    simp only [hc]
    rw [he]

/-- Witness for C4 amended in the login-raises case. -/
theorem freeipa_connect_failure_witness :
    backendLoginFail.newClient ⟨"srv", "u", "p", true⟩ =
      .ok ⟨⟨"srv", "u", "p", true⟩, 1⟩ ∧
    backendLoginFail.login ⟨⟨"srv", "u", "p", true⟩, 1⟩ "u" "p" =
      .error "connection refused" ∧
    freeipa_connect backendLoginFail "srv" "u" "p" true initSession =
      (⟨some ⟨⟨"srv", "u", "p", true⟩, 1⟩, false⟩,
        [.newClient ⟨"srv", "u", "p", true⟩,
          .login ⟨⟨"srv", "u", "p", true⟩, 1⟩ "u" "p"],
        some [("error",
          .str ("FreeIPA bağlantısı başarısız: " ++ "connection refused"))]) :=
  ⟨rfl, rfl,
    (freeipa_connect_failure backendLoginFail "srv" "u" "p" true
      initSession).2 ⟨⟨"srv", "u", "p", true⟩, 1⟩ "connection refused"
      rfl rfl⟩

/-- C5 counterexample: when a handle exists and backend logout raises,
disconnect leaves the handle in place and the flag up — the claimed
always-clearing is false at this input. -/
theorem freeipa_disconnect_logout_raise_no_clear :
    (freeipa_disconnect backendDown ⟨some client0, true⟩).1.client =
      some client0 ∧
    (freeipa_disconnect backendDown ⟨some client0, true⟩).1.connected =
      true := ⟨rfl, rfl⟩

/-- C5 amended: disconnect clears the handle and the flag and reports
success when no handle exists or logout succeeds; when logout raises it
reports the failure and leaves the session state unchanged. -/
theorem freeipa_disconnect_cases (be : Backend) (s : Session) :
    (s.client = Option.none →
      freeipa_disconnect be s =
        (⟨Option.none, false⟩, [],
          some [("result", .str "FreeIPA bağlantısı kapatıldı")])) ∧
    (∀ c, s.client = some c → be.logout c = .ok () →
      freeipa_disconnect be s =
        (⟨Option.none, false⟩, [.logout c],
          some [("result", .str "FreeIPA bağlantısı kapatıldı")])) ∧
    (∀ c e, s.client = some c → be.logout c = .error e →
      freeipa_disconnect be s =
        (s, [.logout c],
          some [("error",
            .str ("FreeIPA bağlantısı kapatılırken hata: " ++ e))])) := by
  refine ⟨?_, ?_, ?_⟩
  · intro hn
    unfold freeipa_disconnect
    rw [hn]
  · intro c hc hl
    unfold freeipa_disconnect
    simp only [hc]
    rw [hl]
  · intro c e hc hl
    unfold freeipa_disconnect
    simp only [hc]
    rw [hl]

/-- Witness for C5 amended in the logout-raises case. -/
theorem freeipa_disconnect_cases_witness :
    (⟨some client0, true⟩ : Session).client = some client0 ∧
    backendDown.logout client0 = .error "connection refused" ∧
    freeipa_disconnect backendDown ⟨some client0, true⟩ =
      (⟨some client0, true⟩, [.logout client0],
        some [("error",
          .str ("FreeIPA bağlantısı kapatılırken hata: " ++
            "connection refused"))]) :=
  ⟨rfl, rfl,
    (freeipa_disconnect_cases backendDown ⟨some client0, true⟩).2.2
      client0 "connection refused" rfl rfl⟩

/-! Session invariant lemmas. -/

/-- connect_freeipa always leaves a state satisfying the invariant: the
flag is set to true only together with storing the fresh handle. -/
theorem invB_connect_freeipa (be : Backend) (cfg : Config) (s : Session) :
    invB (connect_freeipa be cfg s).2.1 = true := by
  unfold connect_freeipa
  split
  · rfl
  · split <;> rfl

/-- The ensure-connected gate preserves the invariant. -/
theorem invB_ensure (be : Backend) (cfg : Config) (s : Session)
    (hs : invB s = true) :
    invB (ensure_connection be cfg s).2.1 = true := by
  unfold ensure_connection
  split
  · split
    · exact hs
    · exact invB_connect_freeipa be cfg s
  all_goals exact invB_connect_freeipa be cfg s

/-- A simple handler never changes the session state beyond what the
gate already did. -/
theorem simpleHandler_state (be : Backend) (cfg : Config) (h : Heap)
    (s : Session) (op : Client → Except String Nat)
    (call : Client → BCall) (dflt : Json) (emsg : String) :
    (simpleHandler be cfg h s op call dflt emsg).1 =
      (ensure_connection be cfg s).2.1 := by
  simp only [simpleHandler]
  split
  · rfl
  · split
    · rfl
    · split
      · rfl
      · split <;> rfl

/-- forgot_reset_password never changes the session state beyond what
the gate already did. -/
theorem forgot_state (be : Backend) (cfg : Config) (h : Heap)
    (s : Session) (u phone np : String) :
    (forgot_reset_password be cfg h s u phone np).1 =
      (ensure_connection be cfg s).2.1 := by
  simp only [forgot_reset_password]
  split
  · rfl
  · split
    · rfl
    · split
      · rfl
      · split
        · rfl
        · split
          · rfl
          · split
            · rfl
            · split
              · split <;> rfl
              · rfl

/-- Every action preserves the session invariant. -/
theorem invB_runAction (be : Backend) (cfg : Config) (h : Heap)
    (s : Session) (a : Action) (hs : invB s = true) :
    invB (runAction be cfg h s a).1 = true := by
  cases a with
  | connect server username password vssl =>
    show invB (freeipa_connect be server username password vssl s).1 = true
    simp only [freeipa_connect]
    split
    · rfl
    · split <;> rfl
  | disconnect =>
    show invB (freeipa_disconnect be s).1 = true
    unfold freeipa_disconnect
    split
    · rfl
    · split
      · rfl
      · exact hs
  | status =>
    show invB (freeipa_status be h s).1 = true
    unfold freeipa_status
    split
    · exact hs
    · split
      · exact hs
      · split
        · rfl
        · split
          · exact hs
          · rfl
  | changePassword u np op =>
    show invB (change_password be cfg h s u np op).1 = true
    rw [change_password, simpleHandler_state]
    exact invB_ensure be cfg s hs
  | forgotResetPassword u p np =>
    show invB (forgot_reset_password be cfg h s u p np).1 = true
    rw [forgot_state]
    exact invB_ensure be cfg s hs
  | userList sz =>
    show invB (user_list be cfg h s sz).1 = true
    rw [user_list, simpleHandler_state]
    exact invB_ensure be cfg s hs
  | userShow uid =>
    show invB (user_show be cfg h s uid).1 = true
    rw [user_show, simpleHandler_state]
    exact invB_ensure be cfg s hs
  | userAdd uid gn sn mail pw =>
    show invB (user_add be cfg h s uid gn sn mail pw).1 = true
    rw [user_add, simpleHandler_state]
    exact invB_ensure be cfg s hs
  | userModify uid kwargs =>
    show invB (user_modify be cfg h s uid kwargs).1 = true
    rw [user_modify, simpleHandler_state]
    exact invB_ensure be cfg s hs
  | groupList sz cn d =>
    show invB (group_list be cfg h s sz cn d).1 = true
    rw [group_list, simpleHandler_state]
    exact invB_ensure be cfg s hs
  | groupShow cn =>
    show invB (group_show be cfg h s cn).1 = true
    rw [group_show, simpleHandler_state]
    exact invB_ensure be cfg s hs
  | groupAdd cn d =>
    show invB (group_add be cfg h s cn d).1 = true
    rw [group_add, simpleHandler_state]
    exact invB_ensure be cfg s hs
  | groupAddMember cn u =>
    show invB (group_add_member be cfg h s cn u).1 = true
    rw [group_add_member, simpleHandler_state]
    exact invB_ensure be cfg s hs
  | groupRemoveMember cn u =>
    show invB (group_remove_member be cfg h s cn u).1 = true
    rw [group_remove_member, simpleHandler_state]
    exact invB_ensure be cfg s hs

/-- C10: in every session state reachable from the initial state (empty
slot, flag down) by any sequence of exposed actions — under arbitrary
per-step backend behavior, response heaps and configurations — a true
connected flag implies the handle slot is non-empty. -/
theorem session_invariant_reachable (steps : List Step) :
    invB (runActions steps initSession) = true := by
  have main : ∀ (l : List Step) (s : Session), invB s = true →
      invB (runActions l s) = true := by
    intro l
    induction l with
    | nil => intro s hs; exact hs
    | cons st rest ih =>
      intro s hs
      exact ih _ (invB_runAction st.be st.cfg st.heap s st.act hs)
  exact main steps initSession rfl

/-! Gate short-circuit lemmas. -/

/-- connect_freeipa issues only connection-management calls. -/
theorem connect_calls_not_directory (be : Backend) (cfg : Config)
    (s : Session) :
    (connect_freeipa be cfg s).2.2.filter BCall.isDirectory = [] := by
  unfold connect_freeipa
  split
  · rfl
  · split <;> rfl

/-- The ensure-connected gate issues only connection-management calls. -/
theorem ensure_calls_not_directory (be : Backend) (cfg : Config)
    (s : Session) :
    (ensure_connection be cfg s).2.2.filter BCall.isDirectory = [] := by
  unfold ensure_connection
  split
  · split
    · rfl
    · exact connect_calls_not_directory be cfg s
  all_goals exact connect_calls_not_directory be cfg s

/-- When the gate fails, a simple handler returns the not-connected error
with the gate's state and calls, issuing nothing itself. -/
theorem simpleHandler_gate_fail (be : Backend) (cfg : Config) (h : Heap)
    (s : Session) (op : Client → Except String Nat)
    (call : Client → BCall) (dflt : Json) (emsg : String)
    (hg : (ensure_connection be cfg s).1 = false) :
    simpleHandler be cfg h s op call dflt emsg =
      ((ensure_connection be cfg s).2.1, (ensure_connection be cfg s).2.2,
        some [("error", .str notConnectedMsg)]) := by
  simp only [simpleHandler, hg]
  rfl

/-- When the gate fails, forgot_reset_password returns the not-connected
error with the gate's state and calls, issuing nothing itself. -/
theorem forgot_gate_fail (be : Backend) (cfg : Config) (h : Heap)
    (s : Session) (u phone np : String)
    (hg : (ensure_connection be cfg s).1 = false) :
    forgot_reset_password be cfg h s u phone np =
      ((ensure_connection be cfg s).2.1, (ensure_connection be cfg s).2.2,
        some [("error", .str notConnectedMsg)]) := by
  simp only [forgot_reset_password, hg]
  rfl

/-- C7: for every directory operation handler and all arguments, when the
ensure-connected gate fails the handler returns exactly the localized
not-connected error and issues zero backend directory calls. -/
theorem directory_gate_fail (be : Backend) (cfg : Config) (h : Heap)
    (s : Session) (a : Action) (hd : a.isDirectory = true)
    (hg : (ensure_connection be cfg s).1 = false) :
    (runAction be cfg h s a).2.2 =
      some [("error", Json.str notConnectedMsg)] ∧
    (runAction be cfg h s a).2.1.filter BCall.isDirectory = [] := by
  cases a with
  | connect server u p v => exact Bool.noConfusion hd
  | disconnect => exact Bool.noConfusion hd
  | status => exact Bool.noConfusion hd
  | changePassword u np op =>
    simp only [runAction, change_password]
    rw [simpleHandler_gate_fail be cfg h s _ _ _ _ hg]
    exact ⟨rfl, ensure_calls_not_directory be cfg s⟩
  | forgotResetPassword u p np =>
    simp only [runAction]
    rw [forgot_gate_fail be cfg h s u p np hg]
    exact ⟨rfl, ensure_calls_not_directory be cfg s⟩
  | userList sz =>
    simp only [runAction, user_list]
    rw [simpleHandler_gate_fail be cfg h s _ _ _ _ hg]
    exact ⟨rfl, ensure_calls_not_directory be cfg s⟩
  | userShow uid =>
    simp only [runAction, user_show]
    rw [simpleHandler_gate_fail be cfg h s _ _ _ _ hg]
    exact ⟨rfl, ensure_calls_not_directory be cfg s⟩
  | userAdd uid gn sn mail pw =>
    simp only [runAction, user_add]
    rw [simpleHandler_gate_fail be cfg h s _ _ _ _ hg]
    exact ⟨rfl, ensure_calls_not_directory be cfg s⟩
  | userModify uid kwargs =>
    simp only [runAction, user_modify]
    rw [simpleHandler_gate_fail be cfg h s _ _ _ _ hg]
    exact ⟨rfl, ensure_calls_not_directory be cfg s⟩
  | groupList sz cn d =>
    simp only [runAction, group_list]
    rw [simpleHandler_gate_fail be cfg h s _ _ _ _ hg]
    exact ⟨rfl, ensure_calls_not_directory be cfg s⟩
  | groupShow cn =>
    simp only [runAction, group_show]
    rw [simpleHandler_gate_fail be cfg h s _ _ _ _ hg]
    exact ⟨rfl, ensure_calls_not_directory be cfg s⟩
  | groupAdd cn d =>
    simp only [runAction, group_add]
    rw [simpleHandler_gate_fail be cfg h s _ _ _ _ hg]
    exact ⟨rfl, ensure_calls_not_directory be cfg s⟩
  | groupAddMember cn u =>
    simp only [runAction, group_add_member]
    rw [simpleHandler_gate_fail be cfg h s _ _ _ _ hg]
    exact ⟨rfl, ensure_calls_not_directory be cfg s⟩
  | groupRemoveMember cn u =>
    simp only [runAction, group_remove_member]
    rw [simpleHandler_gate_fail be cfg h s _ _ _ _ hg]
    exact ⟨rfl, ensure_calls_not_directory be cfg s⟩

/-- Witness for C7: with a dead backend and the initial state, the gate
fails and userList returns the not-connected error without any directory
call. -/
theorem directory_gate_fail_witness :
    (Action.userList 100).isDirectory = true ∧
    (ensure_connection backendDown cfg0 initSession).1 = false ∧
    (runAction backendDown cfg0 heap0 initSession (.userList 100)).2.2 =
      some [("error", Json.str notConnectedMsg)] ∧
    (runAction backendDown cfg0 heap0 initSession
      (.userList 100)).2.1.filter BCall.isDirectory = [] := by
  have h := directory_gate_fail backendDown cfg0 heap0 initSession
    (.userList 100) rfl rfl
  exact ⟨rfl, rfl, h.1, h.2⟩

/-- C8: when the stored phone list is empty, or the normalized input is
not among the normalized stored numbers, forgot_reset_password returns
the phone-verification error and its only directory call is the account
lookup — no credential-modify and no change-password call is issued. -/
theorem forgot_phone_unverified (be : Backend) (cfg : Config) (h : Heap)
    (s : Session) (u phone np : String) (c : Client) (n : Nat)
    (phones : List String)
    (hg : (ensure_connection be cfg s).1 = true)
    (hc : (ensure_connection be cfg s).2.1.client = some c)
    (hshow : be.userShow c u = .ok n)
    (hph : getPhones h n = .ok phones)
    (hfail : (phones.isEmpty ||
      !((phones.map normalize_phone).contains (normalize_phone phone)))
        = true) :
    (runAction be cfg h s (.forgotResetPassword u phone np)).2.2 =
      some [("error",
        .str "Telefon numarası doğrulanamadı veya sistemde kayıtlı değil.")] ∧
    (runAction be cfg h s (.forgotResetPassword u phone np)).2.1.filter
      BCall.isDirectory = [.userShow c u] := by
  have hrun : runAction be cfg h s (.forgotResetPassword u phone np) =
      forgot_reset_password be cfg h s u phone np := rfl
  rw [hrun]
  simp only [forgot_reset_password, hg, Bool.not_true, Bool.false_eq_true,
    if_false, hc, hshow, hph, hfail, if_true]
  refine ⟨trivial, ?_⟩
  rw [List.filter_append, ensure_calls_not_directory be cfg s]
  rfl

/-- A heap holding a user_show response whose result carries one stored
telephone number. -/
def phonesHeap : Heap := fun n =>
  match n with
  | 0 => .dict [(.str "result", 1)]
  | 1 => .dict [(.str "telephonenumber", 2)]
  | 2 => .list [3]
  | _ => .str "+905551234567"

/-- A live backend whose account lookup returns the phonesHeap root. -/
def backendPhones : Backend :=
  { backendUp with userShow := fun _ _ => .ok 0 }

/-- Witness for C8: a non-matching caller number against one stored
number yields the verification error after exactly the lookup call. -/
theorem forgot_phone_unverified_witness :
    (ensure_connection backendPhones cfg0 ⟨some client0, true⟩).1 = true ∧
    getPhones phonesHeap 0 = .ok ["+905551234567"] ∧
    ((["+905551234567"] : List String).isEmpty ||
      !(((["+905551234567"] : List String).map normalize_phone).contains
        (normalize_phone "+905550000000"))) = true ∧
    (runAction backendPhones cfg0 phonesHeap ⟨some client0, true⟩
      (.forgotResetPassword "alice" "+905550000000" "")).2.2 =
      some [("error",
        .str "Telefon numarası doğrulanamadı veya sistemde kayıtlı değil.")] ∧
    (runAction backendPhones cfg0 phonesHeap ⟨some client0, true⟩
      (.forgotResetPassword "alice" "+905550000000" "")).2.1.filter
        BCall.isDirectory = [.userShow client0 "alice"] := by
  have h := forgot_phone_unverified backendPhones cfg0 phonesHeap
    ⟨some client0, true⟩ "alice" "+905550000000" "" client0 0
    ["+905551234567"] rfl rfl rfl rfl (by decide)
  exact ⟨rfl, rfl, by decide, h.1, h.2⟩

/-- C6 counterexample: in the session state with the flag up and an empty
slot, the status action falls off the end of its if and returns the
absent outcome (Python None), which is neither a result mapping nor an
error mapping. -/
theorem status_absent_outcome :
    (runAction backendDown cfg0 heap0 ⟨Option.none, true⟩ .status).2.2 =
      Option.none ∧
    outcomeOk (runAction backendDown cfg0 heap0 ⟨Option.none, true⟩
      .status).2.2 = false := ⟨rfl, rfl⟩

/-- A simple handler always returns a mapping with exactly one of a
result or an error field. -/
theorem outcomeOk_simpleHandler (be : Backend) (cfg : Config) (h : Heap)
    (s : Session) (op : Client → Except String Nat)
    (call : Client → BCall) (dflt : Json) (emsg : String) :
    outcomeOk (simpleHandler be cfg h s op call dflt emsg).2.2 = true := by
  simp only [simpleHandler]
  split
  · rfl
  · split
    · rfl
    · split
      · rfl
      · split <;> rfl

/-- forgot_reset_password always returns a mapping with exactly one of a
result or an error field. -/
theorem outcomeOk_forgot (be : Backend) (cfg : Config) (h : Heap)
    (s : Session) (u phone np : String) :
    outcomeOk (forgot_reset_password be cfg h s u phone np).2.2 = true := by
  simp only [forgot_reset_password]
  split
  · rfl
  · split
    · rfl
    · split
      · rfl
      · split
        · rfl
        · split
          · rfl
          · split
            · rfl
            · split
              · split <;> rfl
              · rfl

/-- Under the session invariant, the status handler returns a mapping
with exactly one of a result or an error field. -/
theorem outcomeOk_status (be : Backend) (h : Heap) (s : Session)
    (hs : invB s = true) :
    outcomeOk (freeipa_status be h s).2.2 = true := by
  unfold freeipa_status
  split
  · rfl
  · next hcond =>
    split
    · next heq =>
      exfalso
      rw [invB, heq] at hs
      simp only [Option.isSome_none, Bool.or_false, Bool.not_eq_true'] at hs
      simp only [Bool.not_eq_true, Bool.not_eq_true'] at hcond
      rw [hs] at hcond
      exact hcond rfl
    · split
      · rfl
      · split <;> rfl

/-- C6 amended: for every exposed action, all arguments, every backend
behavior and every session state in which a raised connected flag is
accompanied by a handle — which covers every reachable state — the
returned value is a mapping holding exactly one of a result field or an
error field; outside the invariant, status returns the absent outcome. -/
theorem runAction_outcome (be : Backend) (cfg : Config) (h : Heap)
    (s : Session) (a : Action) (hs : invB s = true) :
    outcomeOk (runAction be cfg h s a).2.2 = true := by
  cases a with
  | connect server username password vssl =>
    show outcomeOk (freeipa_connect be server username password vssl
      s).2.2 = true
    simp only [freeipa_connect]
    split
    · rfl
    · split <;> rfl
  | disconnect =>
    show outcomeOk (freeipa_disconnect be s).2.2 = true
    unfold freeipa_disconnect
    split
    · rfl
    · split <;> rfl
  | status => exact outcomeOk_status be h s hs
  | changePassword u np op => exact outcomeOk_simpleHandler be cfg h s _ _ _ _
  | forgotResetPassword u p np => exact outcomeOk_forgot be cfg h s u p np
  | userList sz => exact outcomeOk_simpleHandler be cfg h s _ _ _ _
  | userShow uid => exact outcomeOk_simpleHandler be cfg h s _ _ _ _
  | userAdd uid gn sn mail pw =>
    exact outcomeOk_simpleHandler be cfg h s _ _ _ _
  | userModify uid kwargs => exact outcomeOk_simpleHandler be cfg h s _ _ _ _
  | groupList sz cn d => exact outcomeOk_simpleHandler be cfg h s _ _ _ _
  | groupShow cn => exact outcomeOk_simpleHandler be cfg h s _ _ _ _
  | groupAdd cn d => exact outcomeOk_simpleHandler be cfg h s _ _ _ _
  | groupAddMember cn u => exact outcomeOk_simpleHandler be cfg h s _ _ _ _
  | groupRemoveMember cn u =>
    exact outcomeOk_simpleHandler be cfg h s _ _ _ _

/-- Witness for C6 amended at the initial state and the disconnect
action. -/
theorem runAction_outcome_witness :
    invB initSession = true ∧
    outcomeOk (runAction backendDown cfg0 heap0 initSession
      .disconnect).2.2 = true :=
  ⟨rfl, runAction_outcome backendDown cfg0 heap0 initSession .disconnect rfl⟩

end FreeIPA
